import Mathlib

/-
Verification of the mock BOSH Director entity store
(internal/mockbosh/state.go and internal/mockbosh/tasks.go).

Go maps are embedded as association lists with unique-key update
semantics; Go slices as Lean lists; pointer-valued maps are embedded
either by the value they hold (when no aliasing is observable) or by an
explicit heap (for the aliasing behaviour of CreateTask).  Error
messages are modelled without the single-quote punctuation the Go code
puts around names, since no property depends on it.
-/

namespace MockBosh

/-- VM, from the type declarations of the repository (json struct VM). -/
structure VM where
  vmcid : String
  active : Bool
  agentID : String
  az : String
  bootstrap : Bool
  deployment : String
  ips : List String
  job : String
  index : Int
  id : String
  processState : String
  state : String
  vmType : String
  ignore : Bool
  deriving Repr, DecidableEq

/-- Process running on an instance (fields touched by the store; the
uptime and resource-usage payloads are never read or written by any
store operation). -/
structure Process where
  name : String
  state : String
  deriving Repr, DecidableEq

/-- Instance, from the type declarations of the repository. -/
structure Instance where
  agentID : String
  az : String
  bootstrap : Bool
  deployment : String
  disk : String
  expects : Bool
  id : String
  ips : List String
  job : String
  index : Int
  state : String
  vmType : String
  vmcid : String
  processes : List Process
  deriving Repr, DecidableEq

/-- Task, from the type declarations of the repository. -/
structure Task where
  id : Nat
  state : String
  description : String
  timestamp : Int
  result : String
  user : String
  deployment : String
  contextID : String
  deriving Repr, DecidableEq

/-- Deployment aggregate. -/
structure Deployment where
  name : String
  cloudConfig : String
  releases : List (String × String)
  stemcells : List (String × String)
  deriving Repr, DecidableEq

/-- Stemcell catalog entry; `deployments` is its deployment-reference list. -/
structure Stemcell where
  name : String
  operatingSystem : String
  version : String
  cid : String
  deployments : List String
  deriving Repr, DecidableEq

/-- Release catalog entry. -/
structure Release where
  name : String
  version : String
  commitHash : String
  uncommittedChanges : Bool
  deriving Repr, DecidableEq

/-- Cloud config singleton. -/
structure CloudConfig where
  properties : String
  createdAt : String
  deriving Repr, DecidableEq

/-- Runtime config entry. -/
structure RuntimeConfig where
  name : String
  properties : String
  createdAt : String
  deriving Repr, DecidableEq

/-- CPI config singleton. -/
structure CPIConfig where
  properties : String
  createdAt : String
  deriving Repr, DecidableEq

/-- Deployment variable. -/
structure Variable where
  id : String
  name : String
  deriving Repr, DecidableEq

/-- Advisory lock record. -/
structure Lock where
  type : String
  resource : String
  timeout : String
  taskID : String
  deriving Repr, DecidableEq

/-- Lookup in an association list, the embedding of Go map indexing. -/
def mapLookup {κ α : Type} [BEq κ] (l : List (κ × α)) (k : κ) : Option α :=
  (l.find? (fun p => p.1 == k)).map (fun p => p.2)

/-- Key update in an association list, the embedding of `m[k] = v`. -/
def mapInsert {κ α : Type} [BEq κ] (l : List (κ × α)) (k : κ) (v : α) :
    List (κ × α) :=
  (k, v) :: l.filter (fun p => p.1 != k)

/-- Key removal, the embedding of `delete(m, k)`. -/
def mapErase {κ α : Type} [BEq κ] (l : List (κ × α)) (k : κ) : List (κ × α) :=
  l.filter (fun p => p.1 != k)

/-- In-place mutation of the value stored under a key, the embedding of
writing through `m[k]` (a slice or a pointer target). -/
def mapAdjust {κ α : Type} [BEq κ] (l : List (κ × α)) (k : κ) (f : α → α) :
    List (κ × α) :=
  l.map (fun p => if p.1 == k then (p.1, f p.2) else p)

/-- StateData, the root of the entity store (state.go).  The mutex is
concurrency plumbing and has no sequential content. -/
structure StateData where
  deployments : List (String × Deployment)
  vms : List (String × List VM)
  instances : List (String × List Instance)
  deploymentVariables : List (String × List Variable)
  tasks : List (Nat × Task)
  stemcells : List Stemcell
  releases : List Release
  cloudConfig : Option CloudConfig
  runtimeConfigs : List RuntimeConfig
  cpiConfig : Option CPIConfig
  locks : List Lock
  nextTaskID : Nat
  deriving Repr, DecidableEq

/-- GetDeployment (state.go): copy-out read of one deployment. -/
def getDeployment (s : StateData) (name : String) : Except String Deployment :=
  match mapLookup s.deployments name with
  | some d => .ok d
  | none => .error ("deployment " ++ name ++ " not found")

/-- DeleteDeployment (state.go): existence check, then cascading removal
of the deployment, its VMs, Instances and Variables, and a rebuild of
every stemcell deployment-reference list without the deleted name.  The
state component of the result is the store after the call. -/
def deleteDeployment (s : StateData) (name : String) :
    Except String Unit × StateData :=
  if (mapLookup s.deployments name).isSome then
    (.ok (),
      { s with
        deployments := mapErase s.deployments name
        vms := mapErase s.vms name
        instances := mapErase s.instances name
        deploymentVariables := mapErase s.deploymentVariables name
        stemcells := s.stemcells.map (fun st =>
          { st with deployments := st.deployments.filter (fun d => d != name) }) })
  else
    (.error ("deployment " ++ name ++ " not found"), s)

/-- The keep-condition of the GetTasks loop: a task survives both
`continue` tests. -/
def taskMatches (state deployment : String) (t : Task) : Bool :=
  !(state != "" && t.state != state) && !(deployment != "" && t.deployment != deployment)

/-- GetTasks (state.go): collect the map values, filter, sort by id
descending, truncate to `limit` when `0 < limit < length`. -/
def getTasks (s : StateData) (state deployment : String) (limit : Int) :
    List Task :=
  let result := (s.tasks.map (fun p => p.2)).filter (taskMatches state deployment)
  let sorted := result.mergeSort (fun a b => decide (b.id ≤ a.id))
  if 0 < limit ∧ limit < (sorted.length : Int) then
    sorted.take limit.toNat
  else
    sorted

/-- GetTask (state.go): copy-out read of one task. -/
def getTask (s : StateData) (id : Nat) : Except String Task :=
  match mapLookup s.tasks id with
  | some t => .ok t
  | none => .error ("task " ++ toString id ++ " not found")

/-- CreateTask (state.go): increments nextTaskID, stores a fresh queued
task under the new id and returns it.  `now` stands for
`time.Now().Unix()`. -/
def createTask (s : StateData) (description deployment user : String)
    (now : Int) : Task × StateData :=
  let id := s.nextTaskID + 1
  let task : Task :=
    { id := id, state := "queued", description := description,
      timestamp := now, result := "", user := user,
      deployment := deployment, contextID := "" }
  (task, { s with nextTaskID := id, tasks := mapInsert s.tasks id task })

/-- UpdateTaskState (state.go): mutates the stored task through its map
entry; the result text is only overwritten when the argument is
non-empty. -/
def updateTaskState (s : StateData) (id : Nat) (state result : String) :
    Except String Unit × StateData :=
  match mapLookup s.tasks id with
  | none => (.error ("task " ++ toString id ++ " not found"), s)
  | some _ =>
    (.ok (),
      { s with
        tasks := mapAdjust s.tasks id (fun t =>
          { t with state := state,
                   result := if result = "" then t.result else result }) })

/-- RecreateVMs (state.go): existence check, then every VM of the
deployment passing the job filter and the decimal-text index filter gets
the derived recreated VM CID; nothing else changes. -/
def recreateVMs (s : StateData) (deployment job index : String) :
    Except String Unit × StateData :=
  if (mapLookup s.deployments deployment).isSome then
    (.ok (),
      { s with
        vms := mapAdjust s.vms deployment (fun vs => vs.map (fun v =>
          if (job ≠ "" ∧ v.job ≠ job) ∨ (index ≠ "" ∧ toString v.index ≠ index) then
            v
          else
            { v with vmcid := "vm-" ++ deployment ++ "-" ++ v.job ++ "-" ++
                toString v.index ++ "-recreated" })) })
  else
    (.error ("deployment " ++ deployment ++ " not found"), s)

/-- ChangeJobState (state.go): existence check; the switch computes the
process state and the VM process state; matching VMs get the VM process
state and a lifecycle state derived from `newState`; matching instances
and all their processes get the process state. -/
def changeJobState (s : StateData) (deployment job newState : String) :
    Except String Unit × StateData :=
  if (mapLookup s.deployments deployment).isSome then
    let states : String × String :=
      match newState with
      | "stopped" => ("stopped", "stopped")
      | "started" => ("running", "running")
      | "restart" => ("running", "running")
      | _ => ("running", "running")
    let processState := states.1
    let vmProcessState := states.2
    (.ok (),
      { s with
        vms := mapAdjust s.vms deployment (fun vs => vs.map (fun v =>
          if job ≠ "" ∧ v.job ≠ job then v
          else
            { v with processState := vmProcessState,
                     state := if newState = "stopped" then "stopped" else "started" }))
        instances := mapAdjust s.instances deployment (fun xs => xs.map (fun inst =>
          if job ≠ "" ∧ inst.job ≠ job then inst
          else
            { inst with state := processState,
                        processes := inst.processes.map (fun p =>
                          { p with state := processState }) })) })
  else
    (.error ("deployment " ++ deployment ++ " not found"), s)

/-- One run of CreateTask per element of `calls`
(description, deployment, user, now); returns the ids handed back, in
call order, and the final store. -/
def runCreateTasks (s : StateData)
    (calls : List (String × String × String × Int)) : List Nat × StateData :=
  match calls with
  | [] => ([], s)
  | c :: rest =>
    let r := createTask s c.1 c.2.1 c.2.2.1 c.2.2.2
    let rec' := runCreateTasks r.2 rest
    (r.1.id :: rec'.1, rec'.2)

/-- GetTaskOutput (tasks.go): pure read-side view of a task.  An empty
output type is first rewritten to "result"; the switch then selects the
view, and the default arm returns the raw result text. -/
def getTaskOutput (task : Task) (outputType0 : String) : String :=
  let outputType := if outputType0 = "" then "result" else outputType0
  if outputType = "result" then
    if task.result ≠ "" then task.result
    else "Task " ++ toString task.id ++ ": " ++ task.description
  else if outputType = "debug" then
    "DEBUG: Task " ++ toString task.id ++ " started at " ++
      toString task.timestamp ++ "\nDEBUG: State: " ++ task.state ++
      "\nDEBUG: Deployment: " ++ task.deployment
  else if outputType = "cpi" then
    "CPI: No CPI operations for task " ++ toString task.id
  else if outputType = "event" then
    "EVENT: Task " ++ toString task.id ++ " " ++ task.state ++ " at " ++
      toString task.timestamp
  else
    task.result

/-- Pointer-level embedding of the task storage, for the aliasing
behaviour of CreateTask: `heap` maps addresses to task records (the
targets of the Go pointers) and `taskAddrs` embeds `map[int]*Task` by
mapping task ids to addresses. -/
structure TaskHeap where
  heap : List (Nat × Task)
  taskAddrs : List (Nat × Nat)
  nextTaskID : Nat
  nextAddr : Nat
  deriving Repr, DecidableEq

/-- CreateTask at the pointer level: allocates a fresh cell for the new
task, stores its address in the task map, and returns that same address
to the caller (the Go code returns the stored `*Task` itself). -/
def createTaskPtr (s : TaskHeap) (description deployment user : String)
    (now : Int) : Nat × TaskHeap :=
  let id := s.nextTaskID + 1
  let task : Task :=
    { id := id, state := "queued", description := description,
      timestamp := now, result := "", user := user,
      deployment := deployment, contextID := "" }
  let addr := s.nextAddr
  (addr,
    { heap := mapInsert s.heap addr task
      taskAddrs := mapInsert s.taskAddrs id addr
      nextTaskID := id
      nextAddr := addr + 1 })

/-- GetTask at the pointer level: dereference the stored pointer and
copy the record out. -/
def getTaskPtr (s : TaskHeap) (id : Nat) : Option Task :=
  (mapLookup s.taskAddrs id).bind (fun a => mapLookup s.heap a)

/-- A caller assigning through a task pointer it holds: overwrites the
cell at that address. -/
def writeTaskPtr (s : TaskHeap) (addr : Nat) (t : Task) : TaskHeap :=
  { s with heap := mapInsert s.heap addr t }

/-! Concrete sample data used to instantiate the theorems. -/

/-- A store with every collection empty. -/
def emptyStore : StateData :=
  { deployments := [], vms := [], instances := [], deploymentVariables := [],
    tasks := [], stemcells := [], releases := [], cloudConfig := none,
    runtimeConfigs := [], cpiConfig := none, locks := [], nextTaskID := 100 }

/-- Sample VM builder. -/
def mkVM (deployment job : String) (index : Int) (cid : String) : VM :=
  { vmcid := cid, active := true, agentID := "agent-1", az := "z1",
    bootstrap := false, deployment := deployment, ips := ["10.0.0.1"],
    job := job, index := index, id := "uuid-1", processState := "running",
    state := "started", vmType := "small", ignore := false }

/-- Sample instance builder. -/
def mkInstance (deployment job : String) (index : Int) : Instance :=
  { agentID := "agent-1", az := "z1", bootstrap := false,
    deployment := deployment, disk := "disk-1", expects := true,
    id := "uuid-1", ips := ["10.0.0.1"], job := job, index := index,
    state := "running", vmType := "small", vmcid := "vm-1",
    processes := [{ name := "main", state := "running" },
                  { name := "sidecar", state := "running" }] }

/-- Sample task builder. -/
def mkTask (id : Nat) (state deployment result : String) : Task :=
  { id := id, state := state, description := "task " ++ toString id,
    timestamp := 1700000000, result := result, user := "admin",
    deployment := deployment, contextID := "" }

/-- Sample deployment record. -/
def mkDeployment (name : String) : Deployment :=
  { name := name, cloudConfig := "latest",
    releases := [("redis", "1.0")], stemcells := [("jammy", "1.1")] }

/-- A populated sample store: two deployments, VMs, instances,
variables, tasks and one stemcell referencing both deployments. -/
def sampleStore : StateData :=
  { emptyStore with
    deployments := [("redis", mkDeployment "redis"), ("cf", mkDeployment "cf")]
    vms := [("redis", [mkVM "redis" "redis" 0 "vm-a", mkVM "redis" "redis" 1 "vm-b"]),
            ("cf", [mkVM "cf" "api" 0 "vm-c"])]
    instances := [("redis", [mkInstance "redis" "redis" 0]),
                  ("cf", [mkInstance "cf" "api" 0])]
    deploymentVariables := [("redis", [{ id := "v1", name := "redis-password" }])]
    tasks := [(1, mkTask 1 "done" "redis" "Deleted deployment old"),
              (2, mkTask 2 "processing" "cf" ""),
              (3, mkTask 3 "done" "redis" "")]
    stemcells := [{ name := "jammy", operatingSystem := "ubuntu",
                    version := "1.1", cid := "sc-1",
                    deployments := ["redis", "cf"] }] }

/-- Sample task with an empty result text. -/
def emptyResultTask : Task := mkTask 42 "queued" "cf" ""

/-- An empty pointer-level task store. -/
def emptyHeap : TaskHeap :=
  { heap := [], taskAddrs := [], nextTaskID := 100, nextAddr := 0 }

/-- The pointer-level store right after one CreateTask call. -/
def heapAfterCreate : Nat × TaskHeap :=
  createTaskPtr emptyHeap "delete deployment redis" "redis" "admin" 1700000000

/-! Association-list lemmas shared by the claim proofs. -/

theorem mapLookup_mapErase_self {κ α : Type} [BEq κ] [LawfulBEq κ]
    (l : List (κ × α)) (k : κ) : mapLookup (mapErase l k) k = none := by
  simp only [mapLookup, mapErase, Option.map_eq_none']
  rw [List.find?_eq_none]
  intro x hx
  have hne := List.of_mem_filter hx
  simp only [bne_iff_ne, ne_eq] at hne
  simp [hne]

theorem mapLookup_mapAdjust_self {κ α : Type} [BEq κ]
    (l : List (κ × α)) (k : κ) (f : α → α) :
    mapLookup (mapAdjust l k f) k = (mapLookup l k).map f := by
  induction l with
  | nil => rfl
  | cons p rest ih =>
    by_cases h : p.1 == k
    · simp [mapLookup, mapAdjust, List.find?_cons, h]
    · simp only [mapAdjust, List.map_cons, if_neg h]
      simp only [mapLookup, List.find?_cons, h] at ih ⊢
      simpa [mapAdjust] using ih

theorem mapLookup_mapAdjust_ne {κ α : Type} [BEq κ] [LawfulBEq κ]
    (l : List (κ × α)) (k k' : κ) (f : α → α) (h : k' ≠ k) :
    mapLookup (mapAdjust l k f) k' = mapLookup l k' := by
  induction l with
  | nil => rfl
  | cons p rest ih =>
    by_cases hk : p.1 == k
    · have hp : p.1 = k := by simpa using hk
      have hk' : (p.1 == k') = false := by
        simp [hp]
        exact fun e => h e.symm
      simp only [mapAdjust, List.map_cons, if_pos hk]
      simp only [mapLookup, List.find?_cons, hk'] at ih ⊢
      simpa [mapAdjust] using ih
    · simp only [mapAdjust, List.map_cons, if_neg hk]
      by_cases hk' : p.1 == k'
      · simp [mapLookup, List.find?_cons, hk']
      · simp only [mapLookup, List.find?_cons, hk'] at ih ⊢
        simpa [mapAdjust] using ih

theorem mapLookup_mapInsert_self {κ α : Type} [BEq κ] [LawfulBEq κ]
    (l : List (κ × α)) (k : κ) (v : α) :
    mapLookup (mapInsert l k v) k = some v := by
  simp [mapLookup, mapInsert, List.find?_cons]

theorem mapLookup_mapErase_none {κ α : Type} [BEq κ] [LawfulBEq κ]
    (l : List (κ × α)) (k : κ) (h : mapLookup l k = none) :
    mapErase l k = l := by
  induction l with
  | nil => rfl
  | cons p rest ih =>
    simp only [mapLookup, Option.map_eq_none', List.find?_eq_none] at h
    have hp : ¬(p.1 == k) = true := h p (by simp)
    simp only [mapErase, List.filter_cons]
    have hb : (p.1 != k) = true := by
      simp only [bne_iff_ne, ne_eq]
      intro e
      exact hp (by simp [e])
    rw [if_pos hb]
    have : mapLookup rest k = none := by
      simp only [mapLookup, Option.map_eq_none', List.find?_eq_none]
      intro x hx
      exact h x (List.mem_cons_of_mem _ hx)
    simpa [mapErase] using ih this

/-- The keep-condition of the GetTasks loop, in propositional form. -/
theorem taskMatches_iff (st dep : String) (t : Task) :
    taskMatches st dep t = true ↔
      ((st ≠ "" → t.state = st) ∧ (dep ≠ "" → t.deployment = dep)) := by
  by_cases h1 : st = "" <;> by_cases h2 : dep = "" <;>
    simp [taskMatches, h1, h2]

/-- The ids handed out by a run of CreateTask calls are the consecutive
integers starting right above the initial id counter. -/
theorem runCreateTasks_ids (s : StateData)
    (calls : List (String × String × String × Int)) :
    (runCreateTasks s calls).1 = List.range' (s.nextTaskID + 1) calls.length := by
  induction calls generalizing s with
  | nil => rfl
  | cons c rest ih =>
    simp only [runCreateTasks, List.length_cons, List.range'_succ]
    rw [ih]
    rfl

/-- C1: for every sequence of createTask calls on one store, the
returned task ids are strictly increasing in call order, pairwise
distinct, and never reused. -/
theorem createTask_ids_strictly_increasing (s : StateData)
    (calls : List (String × String × String × Int)) :
    List.Pairwise (fun a b => a < b) (runCreateTasks s calls).1 ∧
    (runCreateTasks s calls).1.Nodup := by
  rw [runCreateTasks_ids]
  exact ⟨List.pairwise_lt_range' _ _, List.nodup_range' _ _⟩

/-- C2: deleting an existing deployment succeeds, removes the
deployment together with its VMs, Instances and Variables, strips the
name from every stemcell deployment-reference list, and a subsequent
getDeployment yields the not-found error. -/
theorem deleteDeployment_cascade (s : StateData) (name : String)
    (h : (mapLookup s.deployments name).isSome = true) :
    (deleteDeployment s name).1 = .ok () ∧
    getDeployment (deleteDeployment s name).2 name =
      .error ("deployment " ++ name ++ " not found") ∧
    mapLookup (deleteDeployment s name).2.deployments name = none ∧
    mapLookup (deleteDeployment s name).2.vms name = none ∧
    mapLookup (deleteDeployment s name).2.instances name = none ∧
    mapLookup (deleteDeployment s name).2.deploymentVariables name = none ∧
    ∀ st ∈ (deleteDeployment s name).2.stemcells, name ∉ st.deployments := by
  simp only [deleteDeployment, if_pos h]
  refine ⟨trivial, ?_, ?_, ?_, ?_, ?_, ?_⟩
  · simp [getDeployment, mapLookup_mapErase_self]
  · exact mapLookup_mapErase_self _ _
  · exact mapLookup_mapErase_self _ _
  · exact mapLookup_mapErase_self _ _
  · exact mapLookup_mapErase_self _ _
  · intro st hst
    simp only [List.mem_map] at hst
    obtain ⟨st0, _, rfl⟩ := hst
    intro hmem
    have := List.of_mem_filter hmem
    simp at this

/-- C3: deleting a name without a deployment yields the not-found error
and leaves the entire store unchanged. -/
theorem deleteDeployment_absent (s : StateData) (name : String)
    (h : mapLookup s.deployments name = none) :
    (deleteDeployment s name).1 = .error ("deployment " ++ name ++ " not found") ∧
    (deleteDeployment s name).2 = s := by
  have hb : (mapLookup s.deployments name).isSome = false := by
    simp [h]
  simp [deleteDeployment, hb]

/-- C4: getTasks returns exactly the stored tasks matching the state
filter and the deployment filter conjunctively (each filter applying
only when non-empty): every returned task matches; the result is
ordered by task id descending; a positive limit truncates the sorted
unbounded result to its first `limit` entries; a non-positive limit
returns all matches. -/
theorem getTasks_spec (s : StateData) (st dep : String) (limit : Int) :
    (∀ t ∈ getTasks s st dep limit,
       (st ≠ "" → t.state = st) ∧ (dep ≠ "" → t.deployment = dep)) ∧
    List.Pairwise (fun a b => b.id ≤ a.id) (getTasks s st dep limit) ∧
    (limit ≤ 0 → ∀ t : Task, t ∈ getTasks s st dep limit ↔
       (t ∈ s.tasks.map (fun p => p.2) ∧
        (st ≠ "" → t.state = st) ∧ (dep ≠ "" → t.deployment = dep))) ∧
    (0 < limit →
       getTasks s st dep limit = (getTasks s st dep 0).take limit.toNat) := by
  have htrans : ∀ a b c : Task, decide (b.id ≤ a.id) = true →
      decide (c.id ≤ b.id) = true → decide (c.id ≤ a.id) = true := by
    intro a b c h1 h2
    simp only [decide_eq_true_eq] at h1 h2 ⊢
    omega
  have htotal : ∀ a b : Task,
      (decide (b.id ≤ a.id) || decide (a.id ≤ b.id)) = true := by
    intro a b
    rcases Nat.le_total a.id b.id with h | h <;> simp [h]
  set base := (s.tasks.map (fun p => p.2)).filter (taskMatches st dep) with hbase
  set sorted := base.mergeSort (fun a b => decide (b.id ≤ a.id)) with hsortdef
  have hget : ∀ L : Int, getTasks s st dep L =
      if 0 < L ∧ L < (sorted.length : Int) then sorted.take L.toNat
      else sorted := fun _ => rfl
  have hsorted : List.Pairwise (fun a b : Task => b.id ≤ a.id) sorted := by
    have hp := List.sorted_mergeSort htrans htotal base
    exact hp.imp (by intro a b hab; simpa using hab)
  have hmem : ∀ t : Task, t ∈ sorted ↔ t ∈ base := fun _ => List.mem_mergeSort
  refine ⟨?_, ?_, ?_, ?_⟩
  · intro t ht
    rw [hget limit] at ht
    have htb : t ∈ base := by
      by_cases hc : 0 < limit ∧ limit < (sorted.length : Int)
      · rw [if_pos hc] at ht
        exact (hmem t).1 (List.mem_of_mem_take ht)
      · rw [if_neg hc] at ht
        exact (hmem t).1 ht
    exact (taskMatches_iff st dep t).1 (List.of_mem_filter htb)
  · rw [hget limit]
    by_cases hc : 0 < limit ∧ limit < (sorted.length : Int)
    · rw [if_pos hc]
      exact List.Pairwise.sublist (List.take_sublist _ _) hsorted
    · rw [if_neg hc]
      exact hsorted
  · intro hlim t
    rw [hget limit]
    have hc : ¬(0 < limit ∧ limit < (sorted.length : Int)) := by
      rintro ⟨h1, -⟩
      omega
    rw [if_neg hc, hmem t, hbase, List.mem_filter, taskMatches_iff]
  · intro hlim
    rw [hget limit, hget 0]
    have h0 : ¬((0 : Int) < 0 ∧ (0 : Int) < (sorted.length : Int)) := by
      simp
    rw [if_neg h0]
    by_cases hc : limit < (sorted.length : Int)
    · rw [if_pos ⟨hlim, hc⟩]
    · rw [if_neg (fun hb => hc hb.2)]
      have hlen : sorted.length ≤ limit.toNat := by omega
      exact (List.take_of_length_le hlen).symm

/-- C5: changeJobState on an existing deployment, for newState among
stopped, started and restart, rewrites the VM list of that deployment so
that every VM whose job matches (empty job matching all) gets lifecycle
state stopped/started and process state stopped/running according to
newState, and rewrites the instance list so that every matching instance
and each of its processes get the computed process state; non-matching
entries are untouched. -/
theorem changeJobState_spec (s : StateData) (d job ns : String)
    (hd : (mapLookup s.deployments d).isSome = true)
    (hns : ns = "stopped" ∨ ns = "started" ∨ ns = "restart") :
    (changeJobState s d job ns).1 = .ok () ∧
    mapLookup (changeJobState s d job ns).2.vms d =
      (mapLookup s.vms d).map (fun vs => vs.map (fun v =>
        if job = "" ∨ v.job = job then
          { v with
            state := if ns = "stopped" then "stopped" else "started",
            processState := if ns = "stopped" then "stopped" else "running" }
        else v)) ∧
    mapLookup (changeJobState s d job ns).2.instances d =
      (mapLookup s.instances d).map (fun xs => xs.map (fun inst =>
        if job = "" ∨ inst.job = job then
          { inst with
            state := if ns = "stopped" then "stopped" else "running",
            processes := inst.processes.map (fun p =>
              { p with state := if ns = "stopped" then "stopped" else "running" }) }
        else inst)) := by
  rcases hns with rfl | rfl | rfl <;>
  · simp only [changeJobState, if_pos hd]
    refine ⟨trivial, ?_, ?_⟩
    · rw [mapLookup_mapAdjust_self]
      cases mapLookup s.vms d with
      | none => rfl
      | some vs =>
        simp only [Option.map_some']
        congr 1
        refine List.map_congr_left ?_
        intro v _
        by_cases hj : job = "" ∨ v.job = job
        · have hskip : ¬(job ≠ "" ∧ v.job ≠ job) := by tauto
          rw [if_neg hskip, if_pos hj]
          simp
        · have hskip : job ≠ "" ∧ v.job ≠ job := by tauto
          rw [if_pos hskip, if_neg hj]
    · rw [mapLookup_mapAdjust_self]
      cases mapLookup s.instances d with
      | none => rfl
      | some xs =>
        simp only [Option.map_some']
        congr 1
        refine List.map_congr_left ?_
        intro inst _
        by_cases hj : job = "" ∨ inst.job = job
        · have hskip : ¬(job ≠ "" ∧ inst.job ≠ job) := by tauto
          rw [if_neg hskip, if_pos hj]
          simp
        · have hskip : job ≠ "" ∧ inst.job ≠ job := by tauto
          rw [if_pos hskip, if_neg hj]

/-- C7: updateTaskState on an existing task sets its state and
overwrites the result text only when the new text is non-empty; an
unknown id yields the not-found error and leaves the store unchanged. -/
theorem updateTaskState_spec (s : StateData) (id : Nat) (ns res : String) :
    (∀ t, mapLookup s.tasks id = some t →
       (updateTaskState s id ns res).1 = .ok () ∧
       mapLookup (updateTaskState s id ns res).2.tasks id =
         some { t with state := ns,
                       result := if res = "" then t.result else res }) ∧
    (mapLookup s.tasks id = none →
       (updateTaskState s id ns res).1 =
         .error ("task " ++ toString id ++ " not found") ∧
       (updateTaskState s id ns res).2 = s) := by
  constructor
  · intro t ht
    refine ⟨by simp [updateTaskState, ht], ?_⟩
    simp only [updateTaskState, ht]
    rw [mapLookup_mapAdjust_self, ht]
    rfl
  · intro hn
    simp [updateTaskState, hn]

/-- C8: recreateVMs on an existing deployment succeeds and rewrites the
VM list of that deployment so that exactly the VMs passing the job
filter and the decimal-text index filter get the derived recreated VM
CID built from the deployment name and their own job and index, all
their other fields unchanged; non-matching VMs and the VM lists of all
other deployments are untouched. -/
theorem recreateVMs_spec (s : StateData) (d job idx : String)
    (hd : (mapLookup s.deployments d).isSome = true) :
    (recreateVMs s d job idx).1 = .ok () ∧
    mapLookup (recreateVMs s d job idx).2.vms d =
      (mapLookup s.vms d).map (fun vs => vs.map (fun v =>
        if (job = "" ∨ v.job = job) ∧ (idx = "" ∨ toString v.index = idx) then
          { v with vmcid := "vm-" ++ d ++ "-" ++ v.job ++ "-" ++
              toString v.index ++ "-recreated" }
        else v)) ∧
    (∀ k, k ≠ d → mapLookup (recreateVMs s d job idx).2.vms k = mapLookup s.vms k) := by
  simp only [recreateVMs, if_pos hd]
  refine ⟨trivial, ?_, ?_⟩
  · rw [mapLookup_mapAdjust_self]
    cases mapLookup s.vms d with
    | none => rfl
    | some vs =>
      simp only [Option.map_some']
      congr 1
      refine List.map_congr_left ?_
      intro v _
      by_cases hm : (job = "" ∨ v.job = job) ∧ (idx = "" ∨ toString v.index = idx)
      · have hskip : ¬((job ≠ "" ∧ v.job ≠ job) ∨ (idx ≠ "" ∧ toString v.index ≠ idx)) := by
          tauto
        rw [if_neg hskip, if_pos hm]
      · have hskip : (job ≠ "" ∧ v.job ≠ job) ∨ (idx ≠ "" ∧ toString v.index ≠ idx) := by
          tauto
        rw [if_pos hskip, if_neg hm]
  · intro k hk
    exact mapLookup_mapAdjust_ne _ _ _ _ hk

/-- C6 counterexample: CreateTask hands back the stored record itself,
not an independent copy.  On an empty pointer-level store, one
createTask call returns an address through which a later assignment is
visible to getTask for the created id, refuting "mutating the returned
record never affects the stored state". -/
theorem createTask_alias_counterexample :
    getTaskPtr (writeTaskPtr heapAfterCreate.2 heapAfterCreate.1
      (mkTask 101 "hacked" "redis" "")) 101 ≠
    getTaskPtr heapAfterCreate.2 101 := by
  decide

/-- C6 amended: createTask allocates the next id, stores a task with
state queued and the current timestamp, and returns the stored record
itself: the task map holds the very address handed back, so an
assignment through the returned record is visible via getTask. -/
theorem createTaskPtr_spec (s : TaskHeap) (desc dep user : String) (now : Int) :
    (createTaskPtr s desc dep user now).2.nextTaskID = s.nextTaskID + 1 ∧
    mapLookup (createTaskPtr s desc dep user now).2.taskAddrs (s.nextTaskID + 1) =
      some (createTaskPtr s desc dep user now).1 ∧
    getTaskPtr (createTaskPtr s desc dep user now).2 (s.nextTaskID + 1) =
      some { id := s.nextTaskID + 1, state := "queued", description := desc,
             timestamp := now, result := "", user := user, deployment := dep,
             contextID := "" } ∧
    (∀ t' : Task,
       getTaskPtr (writeTaskPtr (createTaskPtr s desc dep user now).2
           (createTaskPtr s desc dep user now).1 t') (s.nextTaskID + 1) =
         some t') := by
  refine ⟨rfl, ?_, ?_, ?_⟩
  · exact mapLookup_mapInsert_self _ _ _
  · simp [createTaskPtr, getTaskPtr, mapLookup_mapInsert_self]
  · intro t'
    simp [createTaskPtr, getTaskPtr, writeTaskPtr, mapLookup_mapInsert_self]

/-- C9 counterexample: for an unrecognized output kind, getTaskOutput
returns the raw result text instead of the result view; on a task with
an empty result it returns the empty string, not the fallback
"Task {id}: {description}". -/
theorem getTaskOutput_unrecognized_counterexample :
    getTaskOutput emptyResultTask "logs" ≠
      (if emptyResultTask.result ≠ "" then emptyResultTask.result
       else "Task " ++ toString emptyResultTask.id ++ ": " ++
         emptyResultTask.description) := by
  decide

/-- C9 amended: an absent (empty) kind yields the result view, the
result text with the fallback "Task {id}: {description}" when the text
is empty; an unrecognized non-empty kind yields the raw result text
with no fallback. -/
theorem getTaskOutput_default_spec (t : Task) (kind : String)
    (hk : kind ∉ (["result", "debug", "cpi", "event"] : List String)) :
    getTaskOutput t "" =
      (if t.result ≠ "" then t.result
       else "Task " ++ toString t.id ++ ": " ++ t.description) ∧
    (kind ≠ "" → getTaskOutput t kind = t.result) := by
  constructor
  · rfl
  · intro hne
    have h1 : kind ≠ "result" := fun e => hk (by simp [e])
    have h2 : kind ≠ "debug" := fun e => hk (by simp [e])
    have h3 : kind ≠ "cpi" := fun e => hk (by simp [e])
    have h4 : kind ≠ "event" := fun e => hk (by simp [e])
    simp [getTaskOutput, hne, h1, h2, h3, h4]

/-- C10: deleteDeployment never touches the task collection: on both
the success and the error path the stored tasks are unchanged, and so
are the results of getTask for every id and of getTasks for every
filter combination, including a deployment filter naming the deleted
deployment. -/
theorem deleteDeployment_tasks_frame (s : StateData) (name : String) :
    (deleteDeployment s name).2.tasks = s.tasks ∧
    (∀ id, getTask (deleteDeployment s name).2 id = getTask s id) ∧
    (∀ st dep limit, getTasks (deleteDeployment s name).2 st dep limit =
       getTasks s st dep limit) := by
  have htasks : (deleteDeployment s name).2.tasks = s.tasks := by
    by_cases h : (mapLookup s.deployments name).isSome
    · simp [deleteDeployment, h]
    · simp [deleteDeployment, h]
  refine ⟨htasks, ?_, ?_⟩
  · intro id
    simp only [getTask, htasks]
  · intro st dep limit
    simp only [getTasks, htasks]

/-- Witness for C2 at the sample store and the deployment "redis". -/
theorem deleteDeployment_cascade_witness :
    (mapLookup sampleStore.deployments "redis").isSome = true ∧
    ((deleteDeployment sampleStore "redis").1 = .ok () ∧
     getDeployment (deleteDeployment sampleStore "redis").2 "redis" =
       .error ("deployment " ++ "redis" ++ " not found") ∧
     mapLookup (deleteDeployment sampleStore "redis").2.deployments "redis" = none ∧
     mapLookup (deleteDeployment sampleStore "redis").2.vms "redis" = none ∧
     mapLookup (deleteDeployment sampleStore "redis").2.instances "redis" = none ∧
     mapLookup (deleteDeployment sampleStore "redis").2.deploymentVariables "redis" = none ∧
     ∀ st ∈ (deleteDeployment sampleStore "redis").2.stemcells,
       "redis" ∉ st.deployments) :=
  ⟨by decide, deleteDeployment_cascade sampleStore "redis" (by decide)⟩

/-- Witness for C3 at the empty store and an absent name. -/
theorem deleteDeployment_absent_witness :
    mapLookup emptyStore.deployments "ghost" = none ∧
    ((deleteDeployment emptyStore "ghost").1 =
       .error ("deployment " ++ "ghost" ++ " not found") ∧
     (deleteDeployment emptyStore "ghost").2 = emptyStore) :=
  ⟨rfl, deleteDeployment_absent emptyStore "ghost" rfl⟩

/-- Witness for C4 at the sample store: the unbounded-membership part
with limit 0 and the truncation part with limit 2. -/
theorem getTasks_spec_witness :
    ((0 : Int) ≤ 0 ∧
     (∀ t : Task, t ∈ getTasks sampleStore "done" "" 0 ↔
        (t ∈ sampleStore.tasks.map (fun p => p.2) ∧
         (("done" : String) ≠ "" → t.state = "done") ∧
         (("" : String) ≠ "" → t.deployment = "")))) ∧
    ((0 : Int) < 2 ∧
     getTasks sampleStore "done" "redis" 2 =
       (getTasks sampleStore "done" "redis" 0).take (Int.toNat 2)) :=
  ⟨⟨le_refl 0, (getTasks_spec sampleStore "done" "" 0).2.2.1 (le_refl 0)⟩,
   ⟨by decide, (getTasks_spec sampleStore "done" "redis" 2).2.2.2 (by decide)⟩⟩

/-- Witness for C5 at the sample store: stop every job of "redis". -/
theorem changeJobState_spec_witness :
    (mapLookup sampleStore.deployments "redis").isSome = true ∧
    (("stopped" : String) = "stopped" ∨ ("stopped" : String) = "started" ∨
     ("stopped" : String) = "restart") ∧
    ((changeJobState sampleStore "redis" "" "stopped").1 = .ok () ∧
     mapLookup (changeJobState sampleStore "redis" "" "stopped").2.vms "redis" =
       (mapLookup sampleStore.vms "redis").map (fun vs => vs.map (fun v =>
         if ("" : String) = "" ∨ v.job = "" then
           { v with
             state := if ("stopped" : String) = "stopped" then "stopped" else "started",
             processState := if ("stopped" : String) = "stopped" then "stopped" else "running" }
         else v)) ∧
     mapLookup (changeJobState sampleStore "redis" "" "stopped").2.instances "redis" =
       (mapLookup sampleStore.instances "redis").map (fun xs => xs.map (fun inst =>
         if ("" : String) = "" ∨ inst.job = "" then
           { inst with
             state := if ("stopped" : String) = "stopped" then "stopped" else "running",
             processes := inst.processes.map (fun p =>
               { p with state := if ("stopped" : String) = "stopped" then "stopped" else "running" }) }
         else inst))) :=
  ⟨by decide, Or.inl rfl,
   changeJobState_spec sampleStore "redis" "" "stopped" (by decide) (Or.inl rfl)⟩

/-- Witness for C7 at the sample store: an empty result update on the
stored task 2 keeps its prior result, and an unknown id 99 yields the
not-found error and leaves the store unchanged. -/
theorem updateTaskState_spec_witness :
    (mapLookup sampleStore.tasks 2 = some (mkTask 2 "processing" "cf" "") ∧
     ((updateTaskState sampleStore 2 "done" "").1 = .ok () ∧
      mapLookup (updateTaskState sampleStore 2 "done" "").2.tasks 2 =
        some { mkTask 2 "processing" "cf" "" with
               state := "done",
               result := if ("" : String) = ""
                 then (mkTask 2 "processing" "cf" "").result else "" })) ∧
    (mapLookup sampleStore.tasks 99 = none ∧
     ((updateTaskState sampleStore 99 "done" "x").1 =
        .error ("task " ++ toString 99 ++ " not found") ∧
      (updateTaskState sampleStore 99 "done" "x").2 = sampleStore)) :=
  ⟨⟨by decide,
    (updateTaskState_spec sampleStore 2 "done" "").1
      (mkTask 2 "processing" "cf" "") (by decide)⟩,
   ⟨by decide, (updateTaskState_spec sampleStore 99 "done" "x").2 (by decide)⟩⟩

/-- Witness for C8 at the sample store: recreate job "redis" index "0"
of deployment "redis". -/
theorem recreateVMs_spec_witness :
    (mapLookup sampleStore.deployments "redis").isSome = true ∧
    ((recreateVMs sampleStore "redis" "redis" "0").1 = .ok () ∧
     mapLookup (recreateVMs sampleStore "redis" "redis" "0").2.vms "redis" =
       (mapLookup sampleStore.vms "redis").map (fun vs => vs.map (fun v =>
         if (("redis" : String) = "" ∨ v.job = "redis") ∧
            (("0" : String) = "" ∨ toString v.index = "0") then
           { v with vmcid := "vm-" ++ "redis" ++ "-" ++ v.job ++ "-" ++
               toString v.index ++ "-recreated" }
         else v)) ∧
     (∀ k, k ≠ "redis" →
        mapLookup (recreateVMs sampleStore "redis" "redis" "0").2.vms k =
          mapLookup sampleStore.vms k)) :=
  ⟨by decide, recreateVMs_spec sampleStore "redis" "redis" "0" (by decide)⟩

/-- Witness for C9 at a task with an empty result and the unrecognized
kind "logs". -/
theorem getTaskOutput_default_spec_witness :
    ("logs" ∉ (["result", "debug", "cpi", "event"] : List String)) ∧
    (getTaskOutput emptyResultTask "" =
       (if emptyResultTask.result ≠ "" then emptyResultTask.result
        else "Task " ++ toString emptyResultTask.id ++ ": " ++
          emptyResultTask.description) ∧
     getTaskOutput emptyResultTask "logs" = emptyResultTask.result) :=
  ⟨by decide,
   (getTaskOutput_default_spec emptyResultTask "logs" (by decide)).1,
   (getTaskOutput_default_spec emptyResultTask "logs" (by decide)).2 (by decide)⟩

end MockBosh
